import Mathlib

/-!
Shallow embedding of the telemetry line interpreter of the Collision
repository.

The repository contains two variants of the interpreter:

* the "fuzzy" variant, `processLine` in the unnamed source file
  (src/unnamed/part_000), using tolerant case-insensitive patterns and an
  explicit id range check, a GPS fix-validity epsilon test and a comma
  separated GPS fallback;
* the "strict" variant, `handleData` in src/App.tsx, using the exact
  ESP32 line formats, no id range check and `valid: true` on any GPS match.

Strings are modelled as `List Char`; JavaScript numbers are modelled as
`Option Rat`, where `none` stands for `NaN` (every numeric literal the
interpreter can produce is a finite decimal, hence an exact rational).
Every JavaScript regular expression used by the code is embedded as a
dedicated leftmost-match search function.  In each of those patterns the
adjacent character classes are pairwise disjoint, so greedy matching with
no backtracking inside a match position is exactly the regex semantics;
alternations are tried in the regex's order.  Only ASCII text reaches the
interpreter (lines decoded from the ESP32 serial/BLE link), so the
case-insensitive `/i` flag is modelled by ASCII case folding.
-/

namespace Collision

/-- ASCII case folding, mirroring `Char.toLower` on the ASCII range
(the only characters the embedded patterns compare case-insensitively). -/
def lowerC (c : Char) : Char :=
  if 65 ≤ c.toNat ∧ c.toNat ≤ 90 then Char.ofNat (c.toNat + 32) else c

/-- JavaScript `\s` restricted to ASCII: space, tab, LF, VT, FF, CR. -/
def isJsSpace (c : Char) : Bool :=
  c.toNat = 32 || c.toNat = 9 || c.toNat = 10 || c.toNat = 11 ||
  c.toNat = 12 || c.toNat = 13

/-- JavaScript `\d`: the ASCII digits. -/
def isDigitC (c : Char) : Bool :=
  48 ≤ c.toNat && c.toNat ≤ 57

/-- The class `[:\s=]` used between a sensor id and its value. -/
def isSepC (c : Char) : Bool :=
  c = ':' || c = '=' || isJsSpace c

/-- The class `[\d.]` of a sensor distance capture. -/
def isNumC (c : Char) : Bool :=
  isDigitC c || c = '.'

/-- The class `[\d.-]` of a GPS coordinate capture. -/
def isGpsNumC (c : Char) : Bool :=
  isDigitC c || c = '.' || c = '-'

/-- Case-insensitive literal prefix: strip `pat` from the head of `cs`,
comparing ASCII case-folded characters. -/
def ciPrefix : List Char → List Char → Option (List Char)
  | [], cs => some cs
  | _ :: _, [] => none
  | p :: ps, c :: cs => if lowerC p = lowerC c then ciPrefix ps cs else none

/-- Case-sensitive literal prefix. -/
def litPrefix : List Char → List Char → Option (List Char)
  | [], cs => some cs
  | _ :: _, [] => none
  | p :: ps, c :: cs => if p = c then litPrefix ps cs else none

/-- `String.prototype.trim`: drop leading and trailing whitespace. -/
def jsTrim (cs : List Char) : List Char :=
  (((cs.dropWhile isJsSpace).reverse).dropWhile isJsSpace).reverse

/-- Numeric value of a digit string (the effect of `parseInt` on a
`\d+` capture, which is always a plain base-10 numeral). -/
def natOfDigits (ds : List Char) : Nat :=
  ds.foldl (fun a c => a * 10 + (c.toNat - 48)) 0

/-- `parseFloat` restricted to the strings the interpreter feeds it:
captures of `[\d.]+` or `[\d.-]+`.  JavaScript `parseFloat` reads the
longest prefix of the form `[+-]? digits [. digits]` (no exponent can
occur in those captures, and captures are never empty); it returns `NaN`
(modelled as `none`) when no digit occurs in that prefix. -/
def jsParseFloat (cs : List Char) : Option Rat :=
  let neg : Bool := cs.head? = some '-'
  let cs1 := if cs.head? = some '-' ∨ cs.head? = some '+' then cs.tail else cs
  let ds := cs1.takeWhile isDigitC
  let cs2 := cs1.dropWhile isDigitC
  let fs : List Char :=
    if cs2.head? = some '.' then cs2.tail.takeWhile isDigitC else []
  if ds.isEmpty ∧ fs.isEmpty then none
  else
    let mag : Rat :=
      (natOfDigits ds : Rat) + (natOfDigits fs : Rat) / ((10 : Rat) ^ fs.length)
    some (if neg then -mag else mag)

/-- The decimal rendering of a float as it appears in a telemetry line:
an optional minus sign, an integer digit group and an optional
fractional digit group (`-?\d+(\.\d+)?`). -/
def numLit (neg : Bool) (ds fs : List Char) : List Char :=
  (if neg then ['-'] else []) ++ ds ++ (if fs.isEmpty then [] else '.' :: fs)

/-- The rational value denoted by such a decimal rendering. -/
def numLitVal (neg : Bool) (ds fs : List Char) : Rat :=
  if neg then
    -((natOfDigits ds : Rat) + (natOfDigits fs : Rat) / ((10 : Rat) ^ fs.length))
  else
    (natOfDigits ds : Rat) + (natOfDigits fs : Rat) / ((10 : Rat) ^ fs.length)

/-- A labelled GPS line in latitude-first order: `Lat: <a> Lng: <b>`. -/
def latLngLine (a b : List Char) : List Char :=
  'L' :: 'a' :: 't' :: ':' :: ' ' ::
    (a ++ (' ' :: 'L' :: 'n' :: 'g' :: ':' :: ' ' :: b))

/-- A labelled GPS line in longitude-first order: `Lng: <b> Lat: <a>`. -/
def lngLatLine (a b : List Char) : List Char :=
  'L' :: 'n' :: 'g' :: ':' :: ' ' ::
    (b ++ (' ' :: 'L' :: 'a' :: 't' :: ':' :: ' ' :: a))

/-! ### The fuzzy sensor pattern `/(?:ID|Sensor|S)\s*(\d+)[:\s=]+([\d.]+)/i` -/

/-- The tail `\s*(\d+)[:\s=]+([\d.]+)` after a sensor keyword; returns
the two captures.  The classes `\s`, `\d`, `[:\s=]`, `[\d.]` are
consumed greedily; each is disjoint from the next, so this is exact. -/
def sensorTail (cs : List Char) : Option (List Char × List Char) :=
  let cs1 := cs.dropWhile isJsSpace
  let ds := cs1.takeWhile isDigitC
  let cs2 := cs1.dropWhile isDigitC
  let seps := cs2.takeWhile isSepC
  let cs3 := cs2.dropWhile isSepC
  let nm := cs3.takeWhile isNumC
  if ds.isEmpty ∨ seps.isEmpty ∨ nm.isEmpty then none else some (ds, nm)

/-- Try the fuzzy sensor pattern at the current position: the
alternatives `ID`, `Sensor`, `S` in the regex's order, each followed by
`sensorTail`. -/
def sensorAt (cs : List Char) : Option (List Char × List Char) :=
  match (ciPrefix ['I', 'D'] cs).bind sensorTail with
  | some r => some r
  | none =>
    match (ciPrefix ['S', 'e', 'n', 's', 'o', 'r'] cs).bind sensorTail with
    | some r => some r
    | none => (ciPrefix ['S'] cs).bind sensorTail

/-- Leftmost match of the fuzzy sensor pattern. -/
def sensorSearch : List Char → Option (List Char × List Char)
  | [] => none
  | c :: cs =>
    match sensorAt (c :: cs) with
    | some r => some r
    | none => sensorSearch cs

/-! ### The fuzzy GPS patterns -/

/-- The tail `[:\s=]+([\d.-]+)` after a GPS keyword. -/
def gpsTail (cs : List Char) : Option (List Char) :=
  let seps := cs.takeWhile isSepC
  let cs1 := cs.dropWhile isSepC
  let nm := cs1.takeWhile isGpsNumC
  if seps.isEmpty ∨ nm.isEmpty then none else some nm

/-- `/(?:Lat|Latitude|GPS)[:\s=]+([\d.-]+)/i` at the current position. -/
def latAt (cs : List Char) : Option (List Char) :=
  match (ciPrefix ['L', 'a', 't'] cs).bind gpsTail with
  | some r => some r
  | none =>
    match (ciPrefix ['L', 'a', 't', 'i', 't', 'u', 'd', 'e'] cs).bind gpsTail with
    | some r => some r
    | none => (ciPrefix ['G', 'P', 'S'] cs).bind gpsTail

/-- Leftmost match of the latitude pattern. -/
def latSearch : List Char → Option (List Char)
  | [] => none
  | c :: cs =>
    match latAt (c :: cs) with
    | some r => some r
    | none => latSearch cs

/-- `/(?:Lng|Longitude|Lon)[:\s=]+([\d.-]+)/i` at the current position. -/
def lngAt (cs : List Char) : Option (List Char) :=
  match (ciPrefix ['L', 'n', 'g'] cs).bind gpsTail with
  | some r => some r
  | none =>
    match (ciPrefix ['L', 'o', 'n', 'g', 'i', 't', 'u', 'd', 'e'] cs).bind gpsTail with
    | some r => some r
    | none => (ciPrefix ['L', 'o', 'n'] cs).bind gpsTail

/-- Leftmost match of the longitude pattern. -/
def lngSearch : List Char → Option (List Char)
  | [] => none
  | c :: cs =>
    match lngAt (c :: cs) with
    | some r => some r
    | none => lngSearch cs

/-- One `-?\d+\.\d+` number at the current position; returns the matched
characters and the rest of the input. -/
def fixedFloatAt (cs : List Char) : Option (List Char × List Char) :=
  let signAndRest : List Char × List Char :=
    match cs with
    | '-' :: r => (['-'], r)
    | _ => ([], cs)
  let sgn := signAndRest.1
  let cs1 := signAndRest.2
  let ds := cs1.takeWhile isDigitC
  let cs2 := cs1.dropWhile isDigitC
  if ds.isEmpty then none
  else
    match cs2 with
    | '.' :: cs3 =>
      let fs := cs3.takeWhile isDigitC
      let cs4 := cs3.dropWhile isDigitC
      if fs.isEmpty then none
      else some (sgn ++ ds ++ '.' :: fs, cs4)
    | _ => none

/-- `/(-?\d+\.\d+),\s*(-?\d+\.\d+)/` at the current position. -/
def commaAt (cs : List Char) : Option (List Char × List Char) :=
  match fixedFloatAt cs with
  | none => none
  | some (a, rest) =>
    match rest with
    | ',' :: rest1 =>
      match fixedFloatAt (rest1.dropWhile isJsSpace) with
      | none => none
      | some (b, _) => some (a, b)
    | _ => none

/-- Leftmost match of the comma-separated GPS fallback pattern. -/
def commaSearch : List Char → Option (List Char × List Char)
  | [] => none
  | c :: cs =>
    match commaAt (c :: cs) with
    | some r => some r
    | none => commaSearch cs

/-! ### The strict patterns of src/App.tsx (case-sensitive) -/

/-- `/ID (\d+): Distance = ([\d.]+) cm/` at the current position. -/
def sensorStrictAt (cs : List Char) : Option (List Char × List Char) :=
  match litPrefix ['I', 'D', ' '] cs with
  | none => none
  | some cs1 =>
    let ds := cs1.takeWhile isDigitC
    let cs2 := cs1.dropWhile isDigitC
    if ds.isEmpty then none
    else
      match litPrefix
          [':', ' ', 'D', 'i', 's', 't', 'a', 'n', 'c', 'e', ' ', '=', ' '] cs2 with
      | none => none
      | some cs3 =>
        let nm := cs3.takeWhile isNumC
        let cs4 := cs3.dropWhile isNumC
        if nm.isEmpty then none
        else
          match litPrefix [' ', 'c', 'm'] cs4 with
          | none => none
          | some _ => some (ds, nm)

/-- Leftmost match of the strict sensor pattern. -/
def sensorStrictSearch : List Char → Option (List Char × List Char)
  | [] => none
  | c :: cs =>
    match sensorStrictAt (c :: cs) with
    | some r => some r
    | none => sensorStrictSearch cs

/-- `/Lat: ([\d.-]+)\s+Lng: ([\d.-]+)/` at the current position. -/
def gpsStrictAt (cs : List Char) : Option (List Char × List Char) :=
  match litPrefix ['L', 'a', 't', ':', ' '] cs with
  | none => none
  | some cs1 =>
    let a := cs1.takeWhile isGpsNumC
    let cs2 := cs1.dropWhile isGpsNumC
    if a.isEmpty then none
    else
      let sp := cs2.takeWhile isJsSpace
      let cs3 := cs2.dropWhile isJsSpace
      if sp.isEmpty then none
      else
        match litPrefix ['L', 'n', 'g', ':', ' '] cs3 with
        | none => none
        | some cs4 =>
          let b := cs4.takeWhile isGpsNumC
          if b.isEmpty then none else some (a, b)

/-- Leftmost match of the strict GPS pattern. -/
def gpsStrictSearch : List Char → Option (List Char × List Char)
  | [] => none
  | c :: cs =>
    match gpsStrictAt (c :: cs) with
    | some r => some r
    | none => gpsStrictSearch cs

/-! ### Data model (src/unnamed/part_002, the `types` module) -/

/-- `SensorData`: one ultrasonic reading.  `distance` is a JavaScript
number, `none` modelling `NaN`. -/
structure SensorData where
  id : Nat
  distance : Option Rat
  lastUpdate : Nat
deriving DecidableEq

/-- `GpsData`: the most recent position fix. -/
structure GpsData where
  lat : Option Rat
  lng : Option Rat
  valid : Bool
  lastUpdate : Nat
deriving DecidableEq

/-- `BikeState`: the safety-state aggregate.  The JavaScript
`Record<number, SensorData>` is modelled as an association list in key
insertion order (assignment replaces an existing key in place and
appends a fresh key). -/
structure BikeState where
  leftDanger : Bool
  rightDanger : Bool
  backDanger : Bool
  sensors : List (Nat × SensorData)
  gps : GpsData
  isConnected : Bool
deriving DecidableEq

/-- The initial state created at session start (identical in both
variants). -/
def initialState : BikeState :=
  { leftDanger := false
    rightDanger := false
    backDanger := false
    sensors :=
      [(1, ⟨1, some 999, 0⟩), (2, ⟨2, some 999, 0⟩), (3, ⟨3, some 999, 0⟩)]
    gps := ⟨some 0, some 0, false, 0⟩
    isConnected := false }

/-- Lookup of a sensor reading by id. -/
def lookupSensor (k : Nat) : List (Nat × SensorData) → Option SensorData
  | [] => none
  | (k2, v) :: rest => if k2 = k then some v else lookupSensor k rest

/-- JavaScript property assignment `obj[k] = v` on the copied sensor
record: replace an existing key in place, append a fresh one. -/
def setKey (k : Nat) (v : SensorData) : List (Nat × SensorData) → List (Nat × SensorData)
  | [] => [(k, v)]
  | (k2, v2) :: rest =>
    if k2 = k then (k, v) :: rest else (k2, v2) :: setKey k v rest

/-- JavaScript `x < y` on a possibly-NaN left operand: `NaN < y` is false. -/
def jsLtB : Option Rat → Rat → Bool
  | none, _ => false
  | some x, y => decide (x < y)

/-- JavaScript `x > y` on a possibly-NaN left operand: `NaN > y` is false. -/
def jsGtB : Option Rat → Rat → Bool
  | none, _ => false
  | some x, y => decide (y < x)

/-- JavaScript `Math.abs(x) > y`: false when `x` is `NaN`. -/
def jsAbsGtB : Option Rat → Rat → Bool
  | none, _ => false
  | some x, y => decide (y < |x|)

/-- The danger classification shared by both variants:
`distance < 150.0 && distance > 0`. -/
def dangerOf (distance : Option Rat) : Bool :=
  jsLtB distance 150 && jsGtB distance 0

/-- The danger flag corresponding to a sensor id (1 = left/port,
2 = right/starboard, 3 = back/rear). -/
def dangerFlag (id : Nat) (s : BikeState) : Bool :=
  if id = 1 then s.leftDanger else if id = 2 then s.rightDanger else s.backDanger

/-- `addLog`: prepend the message and keep the newest `n` entries
(`[msg, ...prev].slice(0, n)`; `n = 10` in src/App.tsx, `n = 50` in the
unnamed variant). -/
def addLogN (n : Nat) (msg : String) (logs : List String) : List String :=
  (msg :: logs).take n

/-! ### The fuzzy interpreter (`processLine`, src/unnamed/part_000) -/

/-- The sensor branch of the fuzzy `processLine`. -/
def applySensorFuzzy (cs : List Char) (prev : BikeState) (now : Nat) : BikeState :=
  match sensorSearch cs with
  | none => prev
  | some (idStr, distStr) =>
    let id := natOfDigits idStr
    let distance := jsParseFloat distStr
    if 1 ≤ id ∧ id ≤ 3 then
      let isDanger := dangerOf distance
      { prev with
        sensors := setKey id ⟨id, distance, now⟩ prev.sensors
        leftDanger := if id = 1 then isDanger else prev.leftDanger
        rightDanger := if id = 2 then isDanger else prev.rightDanger
        backDanger := if id = 3 then isDanger else prev.backDanger }
    else prev

/-- The GPS extraction of the fuzzy `processLine`: the two labelled
sub-patterns when both match, else the comma-separated fallback. -/
def gpsExtract (cs : List Char) : Option (Option Rat × Option Rat) :=
  match latSearch cs, lngSearch cs with
  | some latStr, some lngStr => some (jsParseFloat latStr, jsParseFloat lngStr)
  | _, _ =>
    match commaSearch cs with
    | some (aStr, bStr) => some (jsParseFloat aStr, jsParseFloat bStr)
    | none => none

/-- The GPS fix-validity epsilon of the fuzzy variant. -/
def epsilonGps : Rat := 1 / 10000

/-- The GPS branch of the fuzzy `processLine`. -/
def applyGpsFuzzy (cs : List Char) (prev : BikeState) (now : Nat) : BikeState :=
  match gpsExtract cs with
  | none => prev
  | some (lat, lng) =>
    { prev with
      gps :=
        { lat := lat
          lng := lng
          valid := jsAbsGtB lat epsilonGps || jsAbsGtB lng epsilonGps
          lastUpdate := now } }

/-- `processLine` of src/unnamed/part_000: trim, ignore empty lines,
then the sensor branch followed by the GPS branch. -/
def processLine (line : String) (prev : BikeState) (now : Nat) : BikeState :=
  let cs := jsTrim line.data
  if cs.isEmpty then prev
  else applyGpsFuzzy cs (applySensorFuzzy cs prev now) now

/-! ### The strict interpreter (`handleData`, src/App.tsx) -/

/-- The sensor branch of the strict `handleData`; note the absence of
any id range check. -/
def applySensorStrict (cs : List Char) (prev : BikeState) (now : Nat) : BikeState :=
  match sensorStrictSearch cs with
  | none => prev
  | some (idStr, distStr) =>
    let id := natOfDigits idStr
    let distance := jsParseFloat distStr
    let isDanger := dangerOf distance
    { prev with
      sensors := setKey id ⟨id, distance, now⟩ prev.sensors
      leftDanger := if id = 1 then isDanger else prev.leftDanger
      rightDanger := if id = 2 then isDanger else prev.rightDanger
      backDanger := if id = 3 then isDanger else prev.backDanger }

/-- The GPS branch of the strict `handleData`: `valid` is the literal
`true` on any match. -/
def applyGpsStrict (cs : List Char) (prev : BikeState) (now : Nat) : BikeState :=
  match gpsStrictSearch cs with
  | none => prev
  | some (latStr, lngStr) =>
    { prev with
      gps :=
        { lat := jsParseFloat latStr
          lng := jsParseFloat lngStr
          valid := true
          lastUpdate := now } }

/-- `handleData` of src/App.tsx: trim the decoded value, drop empty
lines, log the line, then the sensor and GPS branches.  Returns the new
state together with the new log list. -/
def handleData (line : String) (prev : BikeState) (logs : List String) (now : Nat) :
    BikeState × List String :=
  let cs := jsTrim line.data
  if cs.isEmpty then (prev, logs)
  else
    (applyGpsStrict cs (applySensorStrict cs prev now) now,
     addLogN 10 (String.mk cs) logs)

/-! ### Shared helper lemmas -/

theorem lookupSensor_setKey_self (k : Nat) (v : SensorData) :
    ∀ l : List (Nat × SensorData), lookupSensor k (setKey k v l) = some v := by
  intro l
  induction l with
  | nil => simp [setKey, lookupSensor]
  | cons hd tl ih =>
    obtain ⟨k2, v2⟩ := hd
    by_cases h : k2 = k
    · simp [setKey, h, lookupSensor]
    · simp [setKey, h, lookupSensor, ih]

theorem lookupSensor_setKey_ne (j k : Nat) (v : SensorData) (hjk : j ≠ k) :
    ∀ l : List (Nat × SensorData), lookupSensor j (setKey k v l) = lookupSensor j l := by
  intro l
  induction l with
  | nil => simp [setKey, lookupSensor, Ne.symm hjk]
  | cons hd tl ih =>
    obtain ⟨k2, v2⟩ := hd
    by_cases h : k2 = k
    · subst h
      simp [setKey, lookupSensor, Ne.symm hjk]
    · simp [setKey, h, lookupSensor, ih]

theorem applyGpsFuzzy_frame (cs : List Char) (s : BikeState) (now : Nat) :
    (applyGpsFuzzy cs s now).sensors = s.sensors ∧
    (applyGpsFuzzy cs s now).leftDanger = s.leftDanger ∧
    (applyGpsFuzzy cs s now).rightDanger = s.rightDanger ∧
    (applyGpsFuzzy cs s now).backDanger = s.backDanger ∧
    (applyGpsFuzzy cs s now).isConnected = s.isConnected := by
  rcases hg : gpsExtract cs with _ | ⟨a, b⟩ <;> simp [applyGpsFuzzy, hg]

theorem applySensorFuzzy_frame (cs : List Char) (s : BikeState) (now : Nat) :
    (applySensorFuzzy cs s now).gps = s.gps ∧
    (applySensorFuzzy cs s now).isConnected = s.isConnected := by
  rcases hs : sensorSearch cs with _ | ⟨i, d⟩
  · simp [applySensorFuzzy, hs]
  · constructor <;> · simp only [applySensorFuzzy, hs]; split <;> rfl

theorem applyGpsStrict_frame (cs : List Char) (s : BikeState) (now : Nat) :
    (applyGpsStrict cs s now).sensors = s.sensors ∧
    (applyGpsStrict cs s now).leftDanger = s.leftDanger ∧
    (applyGpsStrict cs s now).rightDanger = s.rightDanger ∧
    (applyGpsStrict cs s now).backDanger = s.backDanger ∧
    (applyGpsStrict cs s now).isConnected = s.isConnected := by
  rcases hg : gpsStrictSearch cs with _ | ⟨a, b⟩ <;> simp [applyGpsStrict, hg]

theorem applySensorStrict_frame (cs : List Char) (s : BikeState) (now : Nat) :
    (applySensorStrict cs s now).gps = s.gps ∧
    (applySensorStrict cs s now).isConnected = s.isConnected := by
  rcases hs : sensorStrictSearch cs with _ | ⟨i, d⟩ <;> simp [applySensorStrict, hs]

theorem applyGpsFuzzy_dangerFlag (n : Nat) (cs : List Char) (s : BikeState) (now : Nat) :
    dangerFlag n (applyGpsFuzzy cs s now) = dangerFlag n s := by
  obtain ⟨_, h1, h2, h3, _⟩ := applyGpsFuzzy_frame cs s now
  simp [dangerFlag, h1, h2, h3]

theorem applyGpsStrict_dangerFlag (n : Nat) (cs : List Char) (s : BikeState) (now : Nat) :
    dangerFlag n (applyGpsStrict cs s now) = dangerFlag n s := by
  obtain ⟨_, h1, h2, h3, _⟩ := applyGpsStrict_frame cs s now
  simp [dangerFlag, h1, h2, h3]

theorem dangerOf_eq_true_iff (d : Option Rat) :
    dangerOf d = true ↔ ∃ x, d = some x ∧ 0 < x ∧ x < 150 := by
  cases d with
  | none => simp [dangerOf, jsLtB, jsGtB]
  | some x =>
    simp only [dangerOf, jsLtB, jsGtB, Bool.and_eq_true, decide_eq_true_eq,
      Option.some.injEq]
    constructor
    · rintro ⟨h1, h2⟩
      exact ⟨x, rfl, h2, h1⟩
    · rintro ⟨y, rfl, h2, h3⟩
      exact ⟨h3, h2⟩

theorem jsAbsGtB_eq_true_iff (d : Option Rat) (e : Rat) :
    jsAbsGtB d e = true ↔ ∃ x, d = some x ∧ e < |x| := by
  cases d with
  | none => simp [jsAbsGtB]
  | some x =>
    simp only [jsAbsGtB, decide_eq_true_eq, Option.some.injEq]
    constructor
    · intro h
      exact ⟨x, rfl, h⟩
    · rintro ⟨y, rfl, h⟩
      exact h

theorem processLine_eq (line : String) (s0 : BikeState) (t : Nat)
    (h : jsTrim line.data ≠ []) :
    processLine line s0 t =
      applyGpsFuzzy (jsTrim line.data) (applySensorFuzzy (jsTrim line.data) s0 t) t := by
  simp only [processLine]
  rw [if_neg]
  simpa using h

theorem handleData_eq (line : String) (s0 : BikeState) (logs : List String) (t : Nat)
    (h : jsTrim line.data ≠ []) :
    handleData line s0 logs t =
      (applyGpsStrict (jsTrim line.data) (applySensorStrict (jsTrim line.data) s0 t) t,
       addLogN 10 (String.mk (jsTrim line.data)) logs) := by
  simp only [handleData]
  rw [if_neg]
  simpa using h

theorem ne_nil_of_sensorSearch {cs : List Char} {r : List Char × List Char}
    (h : sensorSearch cs = some r) : cs ≠ [] := by
  intro hnil
  rw [hnil] at h
  simp [sensorSearch] at h

theorem ne_nil_of_sensorStrictSearch {cs : List Char} {r : List Char × List Char}
    (h : sensorStrictSearch cs = some r) : cs ≠ [] := by
  intro hnil
  rw [hnil] at h
  simp [sensorStrictSearch] at h

theorem ne_nil_of_gpsExtract {cs : List Char} {r : Option Rat × Option Rat}
    (h : gpsExtract cs = some r) : cs ≠ [] := by
  intro hnil
  rw [hnil] at h
  simp [gpsExtract, latSearch, lngSearch, commaSearch] at h

theorem ne_nil_of_gpsStrictSearch {cs : List Char} {r : List Char × List Char}
    (h : gpsStrictSearch cs = some r) : cs ≠ [] := by
  intro hnil
  rw [hnil] at h
  simp [gpsStrictSearch] at h

/-! ### Claim C1 -/

/-- C1, counterexample: the claim asserts that interpreting the
canonical strict sensor line `"ID 1: Distance = 42.50 cm"` updates
sensor 1 and sets `leftDanger` to `true` from every previous state.  On
the fuzzy variant (`processLine` of src/unnamed/part_000) the sensor
pattern `(?:ID|Sensor|S)\s*(\d+)[:\s=]+([\d.]+)` cannot consume the
literal text `Distance = `, so this very line matches nothing: from the
initial state at time 5 the interpreter returns the state unchanged,
with `leftDanger` still `false` and sensor 1 still the sentinel
reading. -/
theorem C1_counterexample :
    processLine "ID 1: Distance = 42.50 cm" initialState 5 = initialState ∧
    initialState.leftDanger = false ∧
    lookupSensor 1 initialState.sensors = some ⟨1, some 999, 0⟩ := by
  exact ⟨rfl, rfl, rfl⟩

/-- C1, amended: on the strict variant (`handleData` of src/App.tsx) the
canonical line `"ID 1: Distance = 42.50 cm"` behaves exactly as the
claim states — sensor 1 becomes `{id := 1, distance := 42.5,
lastUpdate := t}`, `leftDanger` becomes `true`, and sensors 2 and 3,
their danger flags and the GPS fix keep their previous values; on the
fuzzy variant (`processLine`) the line matches no pattern and the state
is returned unchanged. -/
theorem C1_strict_updates_fuzzy_rejects :
    (∀ (s0 : BikeState) (logs : List String) (t : Nat),
      lookupSensor 1 ((handleData "ID 1: Distance = 42.50 cm" s0 logs t).1).sensors =
        some ⟨1, some (85 / 2), t⟩ ∧
      ((handleData "ID 1: Distance = 42.50 cm" s0 logs t).1).leftDanger = true ∧
      lookupSensor 2 ((handleData "ID 1: Distance = 42.50 cm" s0 logs t).1).sensors =
        lookupSensor 2 s0.sensors ∧
      lookupSensor 3 ((handleData "ID 1: Distance = 42.50 cm" s0 logs t).1).sensors =
        lookupSensor 3 s0.sensors ∧
      ((handleData "ID 1: Distance = 42.50 cm" s0 logs t).1).rightDanger = s0.rightDanger ∧
      ((handleData "ID 1: Distance = 42.50 cm" s0 logs t).1).backDanger = s0.backDanger ∧
      ((handleData "ID 1: Distance = 42.50 cm" s0 logs t).1).gps = s0.gps) ∧
    (∀ (s0 : BikeState) (t : Nat),
      processLine "ID 1: Distance = 42.50 cm" s0 t = s0) := by
  constructor
  · intro s0 logs t
    have hparse : jsParseFloat ['4', '2', '.', '5', '0'] = some (85 / 2) := by
      have hraw : jsParseFloat ['4', '2', '.', '5', '0'] =
          some (((42 : Nat) : Rat) + ((50 : Nat) : Rat) / (10 : Rat) ^ (2 : Nat)) := rfl
      rw [hraw]
      norm_num
    have h : (handleData "ID 1: Distance = 42.50 cm" s0 logs t).1 =
        { s0 with
          sensors :=
            setKey 1 ⟨1, jsParseFloat ['4', '2', '.', '5', '0'], t⟩ s0.sensors
          leftDanger := dangerOf (jsParseFloat ['4', '2', '.', '5', '0']) } := rfl
    rw [h, hparse]
    have hdanger : dangerOf (some ((85 : Rat) / 2)) = true := by
      simp only [dangerOf, jsLtB, jsGtB, Bool.and_eq_true, decide_eq_true_eq]
      norm_num
    rw [hdanger]
    refine ⟨lookupSensor_setKey_self 1 _ s0.sensors, rfl, ?_, ?_, rfl, rfl, rfl⟩
    · exact lookupSensor_setKey_ne 2 1 _ (by decide) s0.sensors
    · exact lookupSensor_setKey_ne 3 1 _ (by decide) s0.sensors
  · intro s0 t
    rfl

/-! ### Claim C2 -/

/-- C2: in both variants, a sensor line whose captured id is outside
{1,2,3} changes none of the three retained sensor readings and none of
the three danger flags (and, the interpreters being total functions, no
error is raised).  In the fuzzy variant the explicit range check drops
the update; in the strict variant the assignment only touches the
out-of-range key and the flag conditionals all miss. -/
theorem C2_out_of_range_id_dropped :
    (∀ (line : String) (s0 : BikeState) (t : Nat) (idStr dStr : List Char),
      sensorSearch (jsTrim line.data) = some (idStr, dStr) →
      ¬(natOfDigits idStr = 1 ∨ natOfDigits idStr = 2 ∨ natOfDigits idStr = 3) →
      lookupSensor 1 (processLine line s0 t).sensors = lookupSensor 1 s0.sensors ∧
      lookupSensor 2 (processLine line s0 t).sensors = lookupSensor 2 s0.sensors ∧
      lookupSensor 3 (processLine line s0 t).sensors = lookupSensor 3 s0.sensors ∧
      (processLine line s0 t).leftDanger = s0.leftDanger ∧
      (processLine line s0 t).rightDanger = s0.rightDanger ∧
      (processLine line s0 t).backDanger = s0.backDanger) ∧
    (∀ (line : String) (s0 : BikeState) (logs : List String) (t : Nat)
      (idStr dStr : List Char),
      sensorStrictSearch (jsTrim line.data) = some (idStr, dStr) →
      ¬(natOfDigits idStr = 1 ∨ natOfDigits idStr = 2 ∨ natOfDigits idStr = 3) →
      lookupSensor 1 ((handleData line s0 logs t).1).sensors = lookupSensor 1 s0.sensors ∧
      lookupSensor 2 ((handleData line s0 logs t).1).sensors = lookupSensor 2 s0.sensors ∧
      lookupSensor 3 ((handleData line s0 logs t).1).sensors = lookupSensor 3 s0.sensors ∧
      ((handleData line s0 logs t).1).leftDanger = s0.leftDanger ∧
      ((handleData line s0 logs t).1).rightDanger = s0.rightDanger ∧
      ((handleData line s0 logs t).1).backDanger = s0.backDanger) := by
  constructor
  · intro line s0 t idStr dStr hs hid
    rw [processLine_eq line s0 t (ne_nil_of_sensorSearch hs)]
    have hsens : applySensorFuzzy (jsTrim line.data) s0 t = s0 := by
      simp only [applySensorFuzzy, hs]
      rw [if_neg]
      omega
    rw [hsens]
    obtain ⟨hg1, hg2, hg3, hg4, _⟩ := applyGpsFuzzy_frame (jsTrim line.data) s0 t
    exact ⟨by rw [hg1], by rw [hg1], by rw [hg1], hg2, hg3, hg4⟩
  · intro line s0 logs t idStr dStr hs hid
    push_neg at hid
    obtain ⟨hid1, hid2, hid3⟩ := hid
    have h1 : (handleData line s0 logs t).1 =
        applyGpsStrict (jsTrim line.data)
          (applySensorStrict (jsTrim line.data) s0 t) t := by
      rw [handleData_eq line s0 logs t (ne_nil_of_sensorStrictSearch hs)]
    have h2 : applySensorStrict (jsTrim line.data) s0 t =
        { s0 with
          sensors :=
            setKey (natOfDigits idStr)
              ⟨natOfDigits idStr, jsParseFloat dStr, t⟩ s0.sensors } := by
      simp only [applySensorStrict, hs]
      rw [if_neg hid1, if_neg hid2, if_neg hid3]
    rw [h1, h2]
    obtain ⟨hg1, hg2, hg3, hg4, _⟩ :=
      applyGpsStrict_frame (jsTrim line.data)
        { s0 with
          sensors :=
            setKey (natOfDigits idStr)
              ⟨natOfDigits idStr, jsParseFloat dStr, t⟩ s0.sensors } t
    refine ⟨?_, ?_, ?_, hg2, hg3, hg4⟩
    · rw [hg1]
      exact lookupSensor_setKey_ne 1 _ _ (fun h => hid1 h.symm) s0.sensors
    · rw [hg1]
      exact lookupSensor_setKey_ne 2 _ _ (fun h => hid2 h.symm) s0.sensors
    · rw [hg1]
      exact lookupSensor_setKey_ne 3 _ _ (fun h => hid3 h.symm) s0.sensors

/-- C2 witness: concrete out-of-range lines for both variants
(`"S7: 3.4"` fuzzy, `"ID 4: Distance = 10.00 cm"` strict). -/
theorem C2_witness :
    lookupSensor 1 (processLine "S7: 3.4" initialState 5).sensors =
      lookupSensor 1 initialState.sensors ∧
    (processLine "S7: 3.4" initialState 5).leftDanger = initialState.leftDanger ∧
    lookupSensor 2 ((handleData "ID 4: Distance = 10.00 cm" initialState [] 5).1).sensors =
      lookupSensor 2 initialState.sensors ∧
    ((handleData "ID 4: Distance = 10.00 cm" initialState [] 5).1).backDanger =
      initialState.backDanger := by
  obtain ⟨f1, _, _, f4, _, _⟩ :=
    C2_out_of_range_id_dropped.1 "S7: 3.4" initialState 5
      ['7'] ['3', '.', '4'] rfl (by decide)
  obtain ⟨_, g2, _, _, _, g6⟩ :=
    C2_out_of_range_id_dropped.2 "ID 4: Distance = 10.00 cm" initialState [] 5
      ['4'] ['1', '0', '.', '0', '0'] rfl (by decide)
  exact ⟨f1, f4, g2, g6⟩

/-! ### Claim C3 -/

/-- C3, counterexample: the claim asserts `valid = (|lat| > ε ∨ |lng| > ε)`
for every matching GPS line, and in particular that
`"Lat: 0.00001 Lng: 0.00001"` yields `gps.valid = false` from any
previous state.  The strict variant (`handleData`, src/App.tsx) sets
`valid: true` on every GPS match: on that very line from the initial
state it yields `gps.valid = true`. -/
theorem C3_counterexample :
    ((handleData "Lat: 0.00001 Lng: 0.00001" initialState [] 5).1).gps.valid = true := rfl

/-- C3, amended: in the fuzzy variant (`processLine`) the fix validity
equals `|lat| > 1/10000 ∨ |lng| > 1/10000` for every matching GPS line,
and the epsilon-boundary line `"Lat: 0.00001 Lng: 0.00001"` yields
`valid = false`; in the strict variant (`handleData`) `valid` is `true`
on every GPS match. -/
theorem C3_validity_fuzzy_not_strict :
    (∀ (line : String) (s0 : BikeState) (t : Nat) (lat lng : Option Rat),
      gpsExtract (jsTrim line.data) = some (lat, lng) →
      ((processLine line s0 t).gps.valid = true ↔
        (∃ x, lat = some x ∧ epsilonGps < |x|) ∨
        (∃ y, lng = some y ∧ epsilonGps < |y|))) ∧
    (∀ (s0 : BikeState) (t : Nat),
      (processLine "Lat: 0.00001 Lng: 0.00001" s0 t).gps.valid = false) ∧
    (∀ (line : String) (s0 : BikeState) (logs : List String) (t : Nat)
      (a b : List Char),
      gpsStrictSearch (jsTrim line.data) = some (a, b) →
      ((handleData line s0 logs t).1).gps.valid = true) := by
  refine ⟨?_, ?_, ?_⟩
  · intro line s0 t lat lng hg
    rw [processLine_eq line s0 t (ne_nil_of_gpsExtract hg)]
    have h : (applyGpsFuzzy (jsTrim line.data)
        (applySensorFuzzy (jsTrim line.data) s0 t) t).gps.valid =
        (jsAbsGtB lat epsilonGps || jsAbsGtB lng epsilonGps) := by
      simp [applyGpsFuzzy, hg]
    rw [h]
    simp only [Bool.or_eq_true, jsAbsGtB_eq_true_iff]
  · intro s0 t
    have h : (processLine "Lat: 0.00001 Lng: 0.00001" s0 t).gps.valid =
        (jsAbsGtB (jsParseFloat ['0', '.', '0', '0', '0', '0', '1']) epsilonGps ||
         jsAbsGtB (jsParseFloat ['0', '.', '0', '0', '0', '0', '1']) epsilonGps) := rfl
    have hparse : jsParseFloat ['0', '.', '0', '0', '0', '0', '1'] =
        some (((0 : Nat) : Rat) + ((1 : Nat) : Rat) / (10 : Rat) ^ (5 : Nat)) := rfl
    have hval : ¬(epsilonGps < |((0 : Nat) : Rat) + ((1 : Nat) : Rat) / (10 : Rat) ^ (5 : Nat)|) := by
      rw [abs_of_nonneg (by norm_num)]
      norm_num [epsilonGps]
    rw [h, hparse]
    have hfalse : jsAbsGtB
        (some (((0 : Nat) : Rat) + ((1 : Nat) : Rat) / (10 : Rat) ^ (5 : Nat)))
        epsilonGps = false := by
      simp only [jsAbsGtB, decide_eq_false_iff_not]
      exact hval
    rw [hfalse]
    rfl
  · intro line s0 logs t a b hg
    have h1 : (handleData line s0 logs t).1 =
        applyGpsStrict (jsTrim line.data)
          (applySensorStrict (jsTrim line.data) s0 t) t := by
      rw [handleData_eq line s0 logs t (ne_nil_of_gpsStrictSearch hg)]
    rw [h1]
    simp [applyGpsStrict, hg]

/-- C3 witness: the fuzzy validity formula applied to a line whose two
captures parse to `NaN` (both yield `none`, so no fix), and the strict
conjunct applied to a labelled GPS line. -/
theorem C3_witness :
    (processLine "Lat: ... Lng: ..." initialState 5).gps.valid = false ∧
    ((handleData "Lat: 1.0 Lng: 2.0" initialState [] 5).1).gps.valid = true := by
  constructor
  · have h := C3_validity_fuzzy_not_strict.1 "Lat: ... Lng: ..." initialState 5
      none none rfl
    cases hv : (processLine "Lat: ... Lng: ..." initialState 5).gps.valid
    · rfl
    · exact absurd (h.mp hv) (by simp)
  · exact C3_validity_fuzzy_not_strict.2.2 "Lat: 1.0 Lng: 2.0" initialState [] 5
      ['1', '.', '0'] ['2', '.', '0'] rfl

/-! ### Claim C4 -/

/-- C4, counterexample: the claim asserts that a numeric capture that
parses to `NaN` leaves the affected sensor reading and danger flag
unchanged.  On `"S1: ..."` the fuzzy sensor pattern captures `"..."`
(which `parseFloat` turns into `NaN`), yet the interpreter does apply
the update: from a state with `leftDanger = true` the flag is forced to
`false` and sensor 1's reading is overwritten with the `NaN`
distance. -/
theorem C4_counterexample :
    jsParseFloat ['.', '.', '.'] = none ∧
    sensorSearch (jsTrim "S1: ...".data) = some (['1'], ['.', '.', '.']) ∧
    (processLine "S1: ..." { initialState with leftDanger := true } 7).leftDanger = false ∧
    lookupSensor 1
      (processLine "S1: ..." { initialState with leftDanger := true } 7).sensors =
      some ⟨1, none, 7⟩ :=
  ⟨rfl, rfl, rfl, rfl⟩

/-- C4, amended: in both variants, a numeric capture that fails to
parse as a float (`parseFloat` yields `NaN`) never makes the
interpreter throw (both interpreters are total functions), and any
independent GPS match on the same line is still processed in full —
but the update is not skipped: for every line whose matched sensor
capture parses to `NaN` (with an id in {1,2,3}), the matched sensor's
reading is overwritten with the `NaN` distance and timestamp `t`, and
its danger flag is set to `false` (`NaN` fails both threshold
comparisons). -/
theorem C4_nan_not_skipped :
    (∀ (line : String) (s0 : BikeState) (t : Nat) (idStr dStr : List Char),
      sensorSearch (jsTrim line.data) = some (idStr, dStr) →
      (natOfDigits idStr = 1 ∨ natOfDigits idStr = 2 ∨ natOfDigits idStr = 3) →
      jsParseFloat dStr = none →
      lookupSensor (natOfDigits idStr) (processLine line s0 t).sensors =
        some ⟨natOfDigits idStr, none, t⟩ ∧
      dangerFlag (natOfDigits idStr) (processLine line s0 t) = false ∧
      (∀ lat lng : Option Rat,
        gpsExtract (jsTrim line.data) = some (lat, lng) →
        (processLine line s0 t).gps =
          { lat := lat
            lng := lng
            valid := jsAbsGtB lat epsilonGps || jsAbsGtB lng epsilonGps
            lastUpdate := t })) ∧
    (∀ (line : String) (s0 : BikeState) (logs : List String) (t : Nat)
      (idStr dStr : List Char),
      sensorStrictSearch (jsTrim line.data) = some (idStr, dStr) →
      (natOfDigits idStr = 1 ∨ natOfDigits idStr = 2 ∨ natOfDigits idStr = 3) →
      jsParseFloat dStr = none →
      lookupSensor (natOfDigits idStr) ((handleData line s0 logs t).1).sensors =
        some ⟨natOfDigits idStr, none, t⟩ ∧
      dangerFlag (natOfDigits idStr) ((handleData line s0 logs t).1) = false ∧
      (∀ a b : List Char,
        gpsStrictSearch (jsTrim line.data) = some (a, b) →
        ((handleData line s0 logs t).1).gps =
          { lat := jsParseFloat a
            lng := jsParseFloat b
            valid := true
            lastUpdate := t })) := by
  constructor
  · intro line s0 t idStr dStr hs hid hnan
    rw [processLine_eq line s0 t (ne_nil_of_sensorSearch hs)]
    have hrange : 1 ≤ natOfDigits idStr ∧ natOfDigits idStr ≤ 3 := by omega
    have hsens : applySensorFuzzy (jsTrim line.data) s0 t =
        { s0 with
          sensors :=
            setKey (natOfDigits idStr)
              ⟨natOfDigits idStr, jsParseFloat dStr, t⟩ s0.sensors
          leftDanger :=
            if natOfDigits idStr = 1 then dangerOf (jsParseFloat dStr) else s0.leftDanger
          rightDanger :=
            if natOfDigits idStr = 2 then dangerOf (jsParseFloat dStr) else s0.rightDanger
          backDanger :=
            if natOfDigits idStr = 3 then dangerOf (jsParseFloat dStr) else s0.backDanger } := by
      simp only [applySensorFuzzy, hs]
      rw [if_pos hrange]
    refine ⟨?_, ?_, ?_⟩
    · rw [(applyGpsFuzzy_frame _ _ _).1, hsens, hnan]
      exact lookupSensor_setKey_self _ _ s0.sensors
    · rw [applyGpsFuzzy_dangerFlag, hsens, hnan]
      rcases hid with h | h | h <;> rw [h] <;>
        simp [dangerFlag, show dangerOf none = false from rfl]
    · intro lat lng hg
      simp [applyGpsFuzzy, hg]
  · intro line s0 logs t idStr dStr hs hid hnan
    have h1 : (handleData line s0 logs t).1 =
        applyGpsStrict (jsTrim line.data)
          (applySensorStrict (jsTrim line.data) s0 t) t := by
      rw [handleData_eq line s0 logs t (ne_nil_of_sensorStrictSearch hs)]
    have hsens : applySensorStrict (jsTrim line.data) s0 t =
        { s0 with
          sensors :=
            setKey (natOfDigits idStr)
              ⟨natOfDigits idStr, jsParseFloat dStr, t⟩ s0.sensors
          leftDanger :=
            if natOfDigits idStr = 1 then dangerOf (jsParseFloat dStr) else s0.leftDanger
          rightDanger :=
            if natOfDigits idStr = 2 then dangerOf (jsParseFloat dStr) else s0.rightDanger
          backDanger :=
            if natOfDigits idStr = 3 then dangerOf (jsParseFloat dStr) else s0.backDanger } := by
      simp only [applySensorStrict, hs]
    refine ⟨?_, ?_, ?_⟩
    · rw [h1, (applyGpsStrict_frame _ _ _).1, hsens, hnan]
      exact lookupSensor_setKey_self _ _ s0.sensors
    · rw [h1, applyGpsStrict_dangerFlag, hsens, hnan]
      rcases hid with h | h | h <;> rw [h] <;>
        simp [dangerFlag, show dangerOf none = false from rfl]
    · intro a b hg
      rw [h1]
      simp [applyGpsStrict, hg]

/-- C4 witness: the fuzzy line `"S1: ... Lat: 1.5 Lng: 2.5"` (sensor
capture `"..."`, an independent GPS match on the same line) and the
strict line `"ID 1: Distance = . cm"` (sensor capture `"."`), both
captures parsing to `NaN`. -/
theorem C4_witness :
    lookupSensor 1 (processLine "S1: ... Lat: 1.5 Lng: 2.5" initialState 5).sensors =
      some ⟨1, none, 5⟩ ∧
    dangerFlag 1 (processLine "S1: ... Lat: 1.5 Lng: 2.5" initialState 5) = false ∧
    (processLine "S1: ... Lat: 1.5 Lng: 2.5" initialState 5).gps =
      { lat := jsParseFloat ['1', '.', '5']
        lng := jsParseFloat ['2', '.', '5']
        valid := jsAbsGtB (jsParseFloat ['1', '.', '5']) epsilonGps ||
          jsAbsGtB (jsParseFloat ['2', '.', '5']) epsilonGps
        lastUpdate := 5 } ∧
    lookupSensor 1 ((handleData "ID 1: Distance = . cm" initialState [] 5).1).sensors =
      some ⟨1, none, 5⟩ ∧
    dangerFlag 1 ((handleData "ID 1: Distance = . cm" initialState [] 5).1) = false := by
  obtain ⟨f1, f2, f3⟩ := C4_nan_not_skipped.1 "S1: ... Lat: 1.5 Lng: 2.5" initialState 5
    ['1'] ['.', '.', '.'] rfl (Or.inl rfl) rfl
  obtain ⟨g1, g2, _⟩ := C4_nan_not_skipped.2 "ID 1: Distance = . cm" initialState [] 5
    ['1'] ['.'] rfl (Or.inl rfl) rfl
  exact ⟨f1, f2, f3 (jsParseFloat ['1', '.', '5']) (jsParseFloat ['2', '.', '5']) rfl, g1, g2⟩

/-! ### Claim C5 -/

/-- C5: in both variants, for every matched sensor line whose captured
id is in {1,2,3}, the danger flag of that sensor after the call is
`true` if and only if the captured distance parses to a value `x` with
`0 < x < 150`; in particular a distance `<= 0` (or a `NaN` capture)
yields a `false` flag regardless of the threshold. -/
theorem C5_danger_iff :
    (∀ (line : String) (s0 : BikeState) (t : Nat) (idStr dStr : List Char),
      sensorSearch (jsTrim line.data) = some (idStr, dStr) →
      (natOfDigits idStr = 1 ∨ natOfDigits idStr = 2 ∨ natOfDigits idStr = 3) →
      (dangerFlag (natOfDigits idStr) (processLine line s0 t) = true ↔
        ∃ x, jsParseFloat dStr = some x ∧ 0 < x ∧ x < 150)) ∧
    (∀ (line : String) (s0 : BikeState) (logs : List String) (t : Nat)
      (idStr dStr : List Char),
      sensorStrictSearch (jsTrim line.data) = some (idStr, dStr) →
      (natOfDigits idStr = 1 ∨ natOfDigits idStr = 2 ∨ natOfDigits idStr = 3) →
      (dangerFlag (natOfDigits idStr) ((handleData line s0 logs t).1) = true ↔
        ∃ x, jsParseFloat dStr = some x ∧ 0 < x ∧ x < 150)) := by
  constructor
  · intro line s0 t idStr dStr hs hid
    rw [processLine_eq line s0 t (ne_nil_of_sensorSearch hs)]
    have hrange : 1 ≤ natOfDigits idStr ∧ natOfDigits idStr ≤ 3 := by omega
    have hsens : applySensorFuzzy (jsTrim line.data) s0 t =
        { s0 with
          sensors :=
            setKey (natOfDigits idStr)
              ⟨natOfDigits idStr, jsParseFloat dStr, t⟩ s0.sensors
          leftDanger :=
            if natOfDigits idStr = 1 then dangerOf (jsParseFloat dStr) else s0.leftDanger
          rightDanger :=
            if natOfDigits idStr = 2 then dangerOf (jsParseFloat dStr) else s0.rightDanger
          backDanger :=
            if natOfDigits idStr = 3 then dangerOf (jsParseFloat dStr) else s0.backDanger } := by
      simp only [applySensorFuzzy, hs]
      rw [if_pos hrange]
    rw [applyGpsFuzzy_dangerFlag, hsens, ← dangerOf_eq_true_iff]
    rcases hid with h | h | h <;> rw [h] <;> simp [dangerFlag]
  · intro line s0 logs t idStr dStr hs hid
    have h1 : (handleData line s0 logs t).1 =
        applyGpsStrict (jsTrim line.data)
          (applySensorStrict (jsTrim line.data) s0 t) t := by
      rw [handleData_eq line s0 logs t (ne_nil_of_sensorStrictSearch hs)]
    have hsens : applySensorStrict (jsTrim line.data) s0 t =
        { s0 with
          sensors :=
            setKey (natOfDigits idStr)
              ⟨natOfDigits idStr, jsParseFloat dStr, t⟩ s0.sensors
          leftDanger :=
            if natOfDigits idStr = 1 then dangerOf (jsParseFloat dStr) else s0.leftDanger
          rightDanger :=
            if natOfDigits idStr = 2 then dangerOf (jsParseFloat dStr) else s0.rightDanger
          backDanger :=
            if natOfDigits idStr = 3 then dangerOf (jsParseFloat dStr) else s0.backDanger } := by
      simp only [applySensorStrict, hs]
    rw [h1, applyGpsStrict_dangerFlag, hsens, ← dangerOf_eq_true_iff]
    rcases hid with h | h | h <;> rw [h] <;> simp [dangerFlag]

/-- C5 witness: two concrete sensor lines whose distance capture parses
to `NaN`, so that neither variant may raise its danger flag. -/
theorem C5_witness :
    dangerFlag 1 (processLine "S1: ..." initialState 5) = false ∧
    dangerFlag 1 ((handleData "ID 1: Distance = . cm" initialState [] 5).1) = false := by
  constructor
  · have h := C5_danger_iff.1 "S1: ..." initialState 5
      ['1'] ['.', '.', '.'] rfl (Or.inl rfl)
    cases hv : dangerFlag 1 (processLine "S1: ..." initialState 5)
    · rfl
    · exact absurd (h.mp hv)
        (by simp [show jsParseFloat ['.', '.', '.'] = none from rfl])
  · have h := C5_danger_iff.2 "ID 1: Distance = . cm" initialState [] 5
      ['1'] ['.'] rfl (Or.inl rfl)
    cases hv : dangerFlag 1 ((handleData "ID 1: Distance = . cm" initialState [] 5).1)
    · rfl
    · exact absurd (h.mp hv)
        (by simp [show jsParseFloat ['.'] = none from rfl])

/-! ### Claim C6 -/

/-- C6: in both variants, a line that matches neither the sensor pattern
nor any GPS pattern leaves the state equal field-for-field to the input
state (sensors, all danger flags, gps, isConnected); only the log is
affected. -/
theorem C6_no_match_no_op :
    (∀ (line : String) (s0 : BikeState) (t : Nat),
      sensorSearch (jsTrim line.data) = none →
      gpsExtract (jsTrim line.data) = none →
      processLine line s0 t = s0) ∧
    (∀ (line : String) (s0 : BikeState) (logs : List String) (t : Nat),
      sensorStrictSearch (jsTrim line.data) = none →
      gpsStrictSearch (jsTrim line.data) = none →
      (handleData line s0 logs t).1 = s0) := by
  constructor
  · intro line s0 t hs hg
    by_cases hemp : (jsTrim line.data).isEmpty
    · simp [processLine, hemp]
    · rw [processLine_eq line s0 t (by simpa using hemp)]
      have h1 : applySensorFuzzy (jsTrim line.data) s0 t = s0 := by
        simp [applySensorFuzzy, hs]
      rw [h1]
      simp [applyGpsFuzzy, hg]
  · intro line s0 logs t hs hg
    by_cases hemp : (jsTrim line.data).isEmpty
    · simp [handleData, hemp]
    · rw [handleData_eq line s0 logs t (by simpa using hemp)]
      have h1 : applySensorStrict (jsTrim line.data) s0 t = s0 := by
        simp [applySensorStrict, hs]
      simp [h1, applyGpsStrict, hg]

/-- C6 witness: the unrecognizable line `"hello"` is a no-op for both
variants. -/
theorem C6_witness :
    processLine "hello" initialState 5 = initialState ∧
    (handleData "hello" initialState [] 5).1 = initialState :=
  ⟨C6_no_match_no_op.1 "hello" initialState 5 rfl rfl,
   C6_no_match_no_op.2 "hello" initialState [] 5 rfl rfl⟩

/-! ### Claim C7 -/

/-- C7: the comma-separated fallback of the fuzzy variant is used
exactly when the labelled form does not match (the labelled extraction,
when both sub-patterns hit, wins regardless of any comma match; when
either label is missing the result is exactly the comma extraction), and
it is equivalent to the labelled form: `"34.05,-118.24"` yields the same
GPS fix as `"Lat: 34.05 Lng: -118.24"` from every previous state. -/
theorem C7_fallback_equivalent :
    (∀ (s0 : BikeState) (t : Nat),
      (processLine "34.05,-118.24" s0 t).gps =
        (processLine "Lat: 34.05 Lng: -118.24" s0 t).gps) ∧
    (∀ (cs a b : List Char),
      latSearch cs = some a → lngSearch cs = some b →
      gpsExtract cs = some (jsParseFloat a, jsParseFloat b)) ∧
    (∀ cs : List Char,
      (latSearch cs = none ∨ lngSearch cs = none) →
      gpsExtract cs =
        Option.map (fun p => (jsParseFloat p.1, jsParseFloat p.2)) (commaSearch cs)) := by
  refine ⟨?_, ?_, ?_⟩
  · intro s0 t
    have hL : processLine "34.05,-118.24" s0 t =
        applyGpsFuzzy (jsTrim "34.05,-118.24".data) s0 t := rfl
    have hR : processLine "Lat: 34.05 Lng: -118.24" s0 t =
        applyGpsFuzzy (jsTrim "Lat: 34.05 Lng: -118.24".data) s0 t := rfl
    have he1 : gpsExtract (jsTrim "34.05,-118.24".data) =
        some (jsParseFloat ['3', '4', '.', '0', '5'],
          jsParseFloat ['-', '1', '1', '8', '.', '2', '4']) := rfl
    have he2 : gpsExtract (jsTrim "Lat: 34.05 Lng: -118.24".data) =
        some (jsParseFloat ['3', '4', '.', '0', '5'],
          jsParseFloat ['-', '1', '1', '8', '.', '2', '4']) := rfl
    rw [hL, hR]
    simp [applyGpsFuzzy, he1, he2]
  · intro cs a b h1 h2
    simp [gpsExtract, h1, h2]
  · intro cs h
    rcases h with h | h
    · simp only [gpsExtract, h]
      rcases hc : commaSearch cs with _ | ⟨x, y⟩ <;> simp
    · rcases hlat : latSearch cs with _ | a
      · simp only [gpsExtract, hlat]
        rcases hc : commaSearch cs with _ | ⟨x, y⟩ <;> simp
      · simp only [gpsExtract, hlat, h]
        rcases hc : commaSearch cs with _ | ⟨x, y⟩ <;> simp

/-- C7 witness: the labelled extraction applied to a concrete labelled
line, and the fallback equation applied to a concrete label-free comma
line. -/
theorem C7_witness :
    gpsExtract "Lat: 1.0 Lng: 2.0".data =
      some (jsParseFloat ['1', '.', '0'], jsParseFloat ['2', '.', '0']) ∧
    gpsExtract "34.05,-118.24".data =
      Option.map (fun p => (jsParseFloat p.1, jsParseFloat p.2))
        (commaSearch "34.05,-118.24".data) :=
  ⟨C7_fallback_equivalent.2.1 "Lat: 1.0 Lng: 2.0".data
      ['1', '.', '0'] ['2', '.', '0'] rfl rfl,
   C7_fallback_equivalent.2.2 "34.05,-118.24".data (Or.inl rfl)⟩

/-! ### Claim C10 -/

/-- C10: neither interpreter ever modifies the `isConnected` flag: for
every input line and previous state the flag after the call equals the
flag before it (in the source only the transport connect/disconnect
handlers, outside the line interpreter, assign it). -/
theorem C10_isConnected_unchanged :
    (∀ (line : String) (s0 : BikeState) (t : Nat),
      (processLine line s0 t).isConnected = s0.isConnected) ∧
    (∀ (line : String) (s0 : BikeState) (logs : List String) (t : Nat),
      ((handleData line s0 logs t).1).isConnected = s0.isConnected) := by
  constructor
  · intro line s0 t
    by_cases hemp : (jsTrim line.data).isEmpty
    · simp [processLine, hemp]
    · rw [processLine_eq line s0 t (by simpa using hemp)]
      rw [(applyGpsFuzzy_frame _ _ _).2.2.2.2, (applySensorFuzzy_frame _ _ _).2]
  · intro line s0 logs t
    by_cases hemp : (jsTrim line.data).isEmpty
    · simp [handleData, hemp]
    · rw [handleData_eq line s0 logs t (by simpa using hemp)]
      exact ((applyGpsStrict_frame _ _ _).2.2.2.2).trans
        (applySensorStrict_frame _ _ _).2

/-! ### Claim C8 -/

theorem addLogN_length_le (n : Nat) (msg : String) (logs : List String) :
    (addLogN n msg logs).length ≤ n := by
  simp [addLogN]

theorem foldl_addLogN_length_le (n : Nat) :
    ∀ (msgs : List String) (l0 : List String), l0.length ≤ n →
      (msgs.foldl (fun l m => addLogN n m l) l0).length ≤ n := by
  intro msgs
  induction msgs with
  | nil =>
    intro l0 h
    simpa using h
  | cons m ms ih =>
    intro l0 _
    simpa using ih (addLogN n m l0) (addLogN_length_le n m l0)

/-- C8: the recent-log sequence is a bounded last-N ring.  Appending
keeps the newest entry at the head and retains only the previous `n - 1`
entries (the oldest are evicted first); starting from the empty log, any
sequence of appends stays within the bound — 10 in the strict variant of
src/App.tsx, 50 in the fuzzy variant of src/unnamed/part_000 — and
`handleData` appends every accepted non-empty line to the log. -/
theorem C8_log_ring :
    (∀ msgs : List String,
      (msgs.foldl (fun l m => addLogN 10 m l) []).length ≤ 10) ∧
    (∀ msgs : List String,
      (msgs.foldl (fun l m => addLogN 50 m l) []).length ≤ 50) ∧
    (∀ (n : Nat) (msg : String) (logs : List String),
      addLogN (n + 1) msg logs = msg :: logs.take n) ∧
    (∀ (line : String) (s0 : BikeState) (logs : List String) (t : Nat),
      jsTrim line.data ≠ [] →
      (handleData line s0 logs t).2 = addLogN 10 (String.mk (jsTrim line.data)) logs) := by
  refine ⟨?_, ?_, ?_, ?_⟩
  · intro msgs
    exact foldl_addLogN_length_le 10 msgs [] (by simp)
  · intro msgs
    exact foldl_addLogN_length_le 50 msgs [] (by simp)
  · intro n msg logs
    simp [addLogN]
  · intro line s0 logs t h
    rw [handleData_eq line s0 logs t h]

/-- C8 witness: a concrete non-empty line is appended at the head of the
log by the strict variant. -/
theorem C8_witness :
    (handleData "abc" initialState ["old"] 5).2 =
      addLogN 10 (String.mk (jsTrim "abc".data)) ["old"] :=
  C8_log_ring.2.2.2 "abc" initialState ["old"] 5 (by decide)


/-! ### Claim C9: list and character lemmas -/

theorem takeWhile_append_all {p : Char → Bool} :
    ∀ (xs ys : List Char), (∀ c ∈ xs, p c = true) →
      List.takeWhile p (xs ++ ys) = xs ++ List.takeWhile p ys
  | [], _, _ => rfl
  | c :: cs, ys, h => by
    have hc : p c = true := h c (List.mem_cons_self c cs)
    simp only [List.cons_append, List.takeWhile_cons_of_pos hc]
    rw [takeWhile_append_all cs ys (fun d hd => h d (List.mem_cons_of_mem c hd))]

theorem dropWhile_append_all {p : Char → Bool} :
    ∀ (xs ys : List Char), (∀ c ∈ xs, p c = true) →
      List.dropWhile p (xs ++ ys) = List.dropWhile p ys
  | [], _, _ => rfl
  | c :: cs, ys, h => by
    have hc : p c = true := h c (List.mem_cons_self c cs)
    simp only [List.cons_append, List.dropWhile_cons_of_pos hc]
    exact dropWhile_append_all cs ys (fun d hd => h d (List.mem_cons_of_mem c hd))

theorem takeWhile_all {p : Char → Bool} (xs : List Char)
    (h : ∀ c ∈ xs, p c = true) : List.takeWhile p xs = xs := by
  simpa using takeWhile_append_all xs [] h

theorem dropWhile_all {p : Char → Bool} (xs : List Char)
    (h : ∀ c ∈ xs, p c = true) : List.dropWhile p xs = [] := by
  simpa using dropWhile_append_all xs [] h

theorem dropWhile_append_stop {p : Char → Bool} (ys zs : List Char)
    (hne : ys ≠ []) (h : ∀ c ∈ ys, p c = false) :
    List.dropWhile p (ys ++ zs) = ys ++ zs := by
  cases ys with
  | nil => exact absurd rfl hne
  | cons c cs =>
    have hc : ¬ p c = true := by simp [h c (List.mem_cons_self c cs)]
    simp only [List.cons_append, List.dropWhile_cons_of_neg hc]

theorem takeWhile_append_head_neg {p : Char → Bool} (c : Char) (cs rest : List Char)
    (h : ¬ p c = true) : List.takeWhile p ((c :: cs) ++ rest) = [] := by
  rw [List.cons_append, List.takeWhile_cons_of_neg h]

theorem dropWhile_append_head_neg {p : Char → Bool} (c : Char) (cs rest : List Char)
    (h : ¬ p c = true) : List.dropWhile p ((c :: cs) ++ rest) = (c :: cs) ++ rest := by
  rw [List.cons_append, List.dropWhile_cons_of_neg h, ← List.cons_append]

theorem isGpsNumC_cases {c : Char} (h : isGpsNumC c = true) :
    (48 ≤ c.toNat ∧ c.toNat ≤ 57) ∨ c = '.' ∨ c = '-' := by
  simp only [isGpsNumC, isDigitC, Bool.or_eq_true, Bool.and_eq_true,
    decide_eq_true_eq] at h
  tauto

theorem digit_gpsNum {c : Char} (h : isDigitC c = true) : isGpsNumC c = true := by
  simp [isGpsNumC, h]

theorem digit_lowerC {c : Char} (hd : 48 ≤ c.toNat ∧ c.toNat ≤ 57) : lowerC c = c := by
  simp only [lowerC]
  rw [if_neg]
  omega

theorem gpsNum_not_space {c : Char} (h : isGpsNumC c = true) : isJsSpace c = false := by
  rcases isGpsNumC_cases h with hd | rfl | rfl
  · simp only [isJsSpace, Bool.or_eq_false_iff, decide_eq_false_iff_not]
    omega
  · decide
  · decide

theorem gpsNum_not_sep {c : Char} (h : isGpsNumC c = true) : isSepC c = false := by
  rcases isGpsNumC_cases h with hd | rfl | rfl
  · simp only [isSepC, isJsSpace, Bool.or_eq_false_iff, decide_eq_false_iff_not]
    refine ⟨⟨fun he => absurd (he ▸ hd) (by decide),
      fun he => absurd (he ▸ hd) (by decide)⟩, ?_⟩
    omega
  · decide
  · decide

theorem gpsNum_lower {c : Char} (h : isGpsNumC c = true) :
    lowerC c ≠ 'l' ∧ lowerC c ≠ 'g' ∧ lowerC c ≠ 'i' ∧ lowerC c ≠ 's' := by
  rcases isGpsNumC_cases h with hd | rfl | rfl
  · rw [digit_lowerC hd]
    exact ⟨fun he => absurd (he ▸ hd) (by decide),
      fun he => absurd (he ▸ hd) (by decide),
      fun he => absurd (he ▸ hd) (by decide),
      fun he => absurd (he ▸ hd) (by decide)⟩
  · decide
  · decide

theorem numLit_all_gpsNum (neg : Bool) (ds fs : List Char)
    (hds : ∀ c ∈ ds, isDigitC c = true) (hfs : ∀ c ∈ fs, isDigitC c = true) :
    ∀ c ∈ numLit neg ds fs, isGpsNumC c = true := by
  intro c hc
  simp only [numLit, List.mem_append] at hc
  rcases hc with (hc | hc) | hc
  · cases neg with
    | false => simp at hc
    | true =>
      simp at hc
      subst hc
      decide
  · exact digit_gpsNum (hds c hc)
  · by_cases hfse : fs.isEmpty
    · rw [if_pos hfse] at hc
      simp at hc
    · rw [if_neg hfse] at hc
      rcases List.mem_cons.mp hc with rfl | hc
      · decide
      · exact digit_gpsNum (hfs c hc)

theorem numLit_ne_nil (neg : Bool) (ds fs : List Char) (h : ds ≠ []) :
    numLit neg ds fs ≠ [] := by
  simp only [numLit]
  intro hcontra
  rcases List.append_eq_nil.mp hcontra with ⟨h1, _⟩
  rcases List.append_eq_nil.mp h1 with ⟨_, h2⟩
  exact h h2


/-! ### Claim C9: search lemmas -/

theorem ciPrefix_none_head (p : Char) (ps : List Char) (c : Char) (cs : List Char)
    (h : ¬ lowerC p = lowerC c) : ciPrefix (p :: ps) (c :: cs) = none := by
  simp only [ciPrefix]
  rw [if_neg h]

theorem latAt_none_head (c : Char) (cs : List Char)
    (h1 : lowerC c ≠ 'l') (h2 : lowerC c ≠ 'g') : latAt (c :: cs) = none := by
  have e1 : ciPrefix ['L', 'a', 't'] (c :: cs) = none :=
    ciPrefix_none_head 'L' _ c cs (fun he => h1 (he.symm.trans (by decide)))
  have e2 : ciPrefix ['L', 'a', 't', 'i', 't', 'u', 'd', 'e'] (c :: cs) = none :=
    ciPrefix_none_head 'L' _ c cs (fun he => h1 (he.symm.trans (by decide)))
  have e3 : ciPrefix ['G', 'P', 'S'] (c :: cs) = none :=
    ciPrefix_none_head 'G' _ c cs (fun he => h2 (he.symm.trans (by decide)))
  simp [latAt, e1, e2, e3]

theorem lngAt_none_head (c : Char) (cs : List Char)
    (h1 : lowerC c ≠ 'l') : lngAt (c :: cs) = none := by
  have e1 : ciPrefix ['L', 'n', 'g'] (c :: cs) = none :=
    ciPrefix_none_head 'L' _ c cs (fun he => h1 (he.symm.trans (by decide)))
  have e2 : ciPrefix ['L', 'o', 'n', 'g', 'i', 't', 'u', 'd', 'e'] (c :: cs) = none :=
    ciPrefix_none_head 'L' _ c cs (fun he => h1 (he.symm.trans (by decide)))
  have e3 : ciPrefix ['L', 'o', 'n'] (c :: cs) = none :=
    ciPrefix_none_head 'L' _ c cs (fun he => h1 (he.symm.trans (by decide)))
  simp [lngAt, e1, e2, e3]

theorem latSearch_cons_none (c : Char) (cs : List Char)
    (h : latAt (c :: cs) = none) : latSearch (c :: cs) = latSearch cs := by
  simp only [latSearch, h]

theorem lngSearch_cons_none (c : Char) (cs : List Char)
    (h : lngAt (c :: cs) = none) : lngSearch (c :: cs) = lngSearch cs := by
  simp only [lngSearch, h]

theorem latSearch_skip : ∀ (xs rest : List Char),
    (∀ c ∈ xs, lowerC c ≠ 'l' ∧ lowerC c ≠ 'g') →
    latSearch (xs ++ rest) = latSearch rest
  | [], _, _ => rfl
  | c :: cs, rest, h => by
    have hc := h c (List.mem_cons_self c cs)
    rw [List.cons_append, latSearch_cons_none _ _ (latAt_none_head c _ hc.1 hc.2)]
    exact latSearch_skip cs rest (fun d hd => h d (List.mem_cons_of_mem c hd))

theorem lngSearch_skip : ∀ (xs rest : List Char),
    (∀ c ∈ xs, lowerC c ≠ 'l') →
    lngSearch (xs ++ rest) = lngSearch rest
  | [], _, _ => rfl
  | c :: cs, rest, h => by
    have hc := h c (List.mem_cons_self c cs)
    rw [List.cons_append, lngSearch_cons_none _ _ (lngAt_none_head c _ hc)]
    exact lngSearch_skip cs rest (fun d hd => h d (List.mem_cons_of_mem c hd))

theorem gpsTail_eq (seps a rest : List Char)
    (h1 : ∀ c ∈ seps, isSepC c = true) (h2 : seps ≠ [])
    (h3 : ∀ c ∈ a, isGpsNumC c = true) (h4 : a ≠ [])
    (h5 : List.takeWhile isGpsNumC rest = []) :
    gpsTail (seps ++ (a ++ rest)) = some a := by
  cases a with
  | nil => exact absurd rfl h4
  | cons c0 a2 =>
    have hc0 : isGpsNumC c0 = true := h3 c0 (List.mem_cons_self c0 a2)
    have hc0sep : ¬ isSepC c0 = true := by simp [gpsNum_not_sep hc0]
    have hcond : ¬((List.takeWhile isSepC (seps ++ ((c0 :: a2) ++ rest))).isEmpty = true ∨
        (List.takeWhile isGpsNumC
          (List.dropWhile isSepC (seps ++ ((c0 :: a2) ++ rest)))).isEmpty = true) := by
      rw [takeWhile_append_all seps _ h1,
        takeWhile_append_head_neg c0 a2 rest hc0sep, List.append_nil,
        dropWhile_append_all seps _ h1,
        dropWhile_append_head_neg c0 a2 rest hc0sep,
        takeWhile_append_all (c0 :: a2) rest h3, h5, List.append_nil]
      simp [h2]
    simp only [gpsTail]
    rw [if_neg hcond,
      dropWhile_append_all seps _ h1,
      dropWhile_append_head_neg c0 a2 rest hc0sep,
      takeWhile_append_all (c0 :: a2) rest h3, h5, List.append_nil]

/-! ### Claim C9: numeral parsing -/

theorem jsParseFloat_numLit (neg : Bool) (ds fs : List Char)
    (h1 : ds ≠ []) (hds : ∀ c ∈ ds, isDigitC c = true)
    (hfs : ∀ c ∈ fs, isDigitC c = true) :
    jsParseFloat (numLit neg ds fs) = some (numLitVal neg ds fs) := by
  obtain ⟨d0, ds2, rfl⟩ : ∃ d0 ds2, ds = d0 :: ds2 := by
    cases ds with
    | nil => exact absurd rfl h1
    | cons x xs => exact ⟨x, xs, rfl⟩
  have hd0 : isDigitC d0 = true := hds d0 (List.mem_cons_self d0 ds2)
  have hd0n : 48 ≤ d0.toNat ∧ d0.toNat ≤ 57 := by
    simpa [isDigitC, Bool.and_eq_true, decide_eq_true_eq] using hd0
  have hd0m : d0 ≠ '-' := fun he => absurd (he ▸ hd0n) (by decide)
  have hd0p : d0 ≠ '+' := fun he => absurd (he ▸ hd0n) (by decide)
  have e1 : (some d0 = some '-') = False := by simp [Option.some.injEq, hd0m]
  have e2 : (some d0 = some '+') = False := by simp [Option.some.injEq, hd0p]
  by_cases hfse : fs.isEmpty = true
  · have hfs0 : fs = [] := by simpa using hfse
    subst hfs0
    cases neg with
    | true =>
      have hcs : numLit true (d0 :: ds2) [] = '-' :: ((d0 :: ds2) ++ []) := rfl
      rw [hcs, List.append_nil]
      simp only [jsParseFloat, List.head?_cons, List.tail_cons, true_or, if_true,
        decide_True]
      rw [takeWhile_all _ hds, dropWhile_all _ hds]
      simp [numLitVal]
    | false =>
      have hcs : numLit false (d0 :: ds2) [] = (d0 :: ds2) ++ [] := rfl
      rw [hcs, List.append_nil]
      simp only [jsParseFloat, List.head?_cons, e1, e2, or_self, if_false,
        decide_False]
      rw [takeWhile_all _ hds, dropWhile_all _ hds]
      simp [numLitVal]
  · have hfsne : (if fs.isEmpty = true then ([] : List Char) else '.' :: fs) = '.' :: fs := by
      rw [if_neg hfse]
    have htake : List.takeWhile isDigitC ((d0 :: ds2) ++ '.' :: fs) = d0 :: ds2 := by
      rw [takeWhile_append_all _ _ hds, List.takeWhile_cons_of_neg (by decide),
        List.append_nil]
    have hdrop : List.dropWhile isDigitC ((d0 :: ds2) ++ '.' :: fs) = '.' :: fs := by
      rw [dropWhile_append_all _ _ hds, List.dropWhile_cons_of_neg (by decide)]
    cases neg with
    | true =>
      have hcs : numLit true (d0 :: ds2) fs =
          '-' :: ((d0 :: ds2) ++ (if fs.isEmpty = true then [] else '.' :: fs)) := rfl
      rw [hcs, hfsne]
      simp only [jsParseFloat, List.head?_cons, List.tail_cons, true_or, if_true,
        decide_True]
      rw [htake, hdrop]
      simp only [List.head?_cons, if_true, List.tail_cons,
        takeWhile_all _ hfs]
      simp [numLitVal]
    | false =>
      have hcs : numLit false (d0 :: ds2) fs =
          (d0 :: ds2) ++ (if fs.isEmpty = true then [] else '.' :: fs) := rfl
      rw [hcs, hfsne]
      have hcons : (d0 :: ds2) ++ '.' :: fs = d0 :: (ds2 ++ '.' :: fs) := rfl
      rw [hcons]
      simp only [jsParseFloat, List.head?_cons, e1, e2, or_self, if_false,
        decide_False]
      rw [← hcons, htake, hdrop]
      simp only [List.head?_cons, if_true, List.tail_cons,
        takeWhile_all _ hfs]
      simp [numLitVal]

/-! ### Claim C9: line lemmas -/

theorem latSearch_latLngLine (a b : List Char) (ha2 : a ≠ [])
    (ha : ∀ c ∈ a, isGpsNumC c = true) :
    latSearch (latLngLine a b) = some a := by
  have htail : gpsTail ([':', ' '] ++
      (a ++ (' ' :: 'L' :: 'n' :: 'g' :: ':' :: ' ' :: b))) = some a :=
    gpsTail_eq [':', ' '] a _ (by decide) (by decide) ha ha2
      (List.takeWhile_cons_of_neg (by decide))
  have hat : latAt (latLngLine a b) = some a := by
    have hpre : ciPrefix ['L', 'a', 't'] (latLngLine a b) =
        some ([':', ' '] ++ (a ++ (' ' :: 'L' :: 'n' :: 'g' :: ':' :: ' ' :: b))) := rfl
    simp only [latAt, hpre, Option.bind, htail]
  rw [show latLngLine a b = 'L' :: ('a' :: 't' :: ':' :: ' ' ::
      (a ++ (' ' :: 'L' :: 'n' :: 'g' :: ':' :: ' ' :: b))) from rfl] at hat ⊢
  simp only [latSearch, hat]

theorem lngSearch_latLngLine (a b : List Char)
    (ha : ∀ c ∈ a, isGpsNumC c = true) (hb2 : b ≠ [])
    (hb : ∀ c ∈ b, isGpsNumC c = true) :
    lngSearch (latLngLine a b) = some b := by
  have hat : lngAt ('L' :: 'n' :: 'g' :: ':' :: ' ' :: b) = some b := by
    have hpre : ciPrefix ['L', 'n', 'g'] ('L' :: 'n' :: 'g' :: ':' :: ' ' :: b) =
        some (':' :: ' ' :: b) := rfl
    have htail : gpsTail ([':', ' '] ++ (b ++ [])) = some b :=
      gpsTail_eq [':', ' '] b [] (by decide) (by decide) hb hb2 rfl
    rw [List.append_nil] at htail
    have htail2 : gpsTail (':' :: ' ' :: b) = some b := htail
    simp only [lngAt, hpre, Option.bind, htail2]
  have hlast : lngSearch ('L' :: 'n' :: 'g' :: ':' :: ' ' :: b) = some b := by
    simp only [lngSearch, hat]
  have s0 : lngSearch (latLngLine a b) =
      lngSearch ('a' :: 't' :: ':' :: ' ' ::
        (a ++ (' ' :: 'L' :: 'n' :: 'g' :: ':' :: ' ' :: b))) := by
    rw [show latLngLine a b = 'L' :: ('a' :: 't' :: ':' :: ' ' ::
        (a ++ (' ' :: 'L' :: 'n' :: 'g' :: ':' :: ' ' :: b))) from rfl]
    exact lngSearch_cons_none _ _ rfl
  rw [s0]
  rw [show ('a' :: 't' :: ':' :: ' ' ::
      (a ++ (' ' :: 'L' :: 'n' :: 'g' :: ':' :: ' ' :: b))) =
      (['a', 't', ':', ' '] : List Char) ++
        (a ++ (' ' :: 'L' :: 'n' :: 'g' :: ':' :: ' ' :: b)) from rfl]
  rw [lngSearch_skip ['a', 't', ':', ' '] _ (by decide)]
  rw [lngSearch_skip a _ (fun c hc => (gpsNum_lower (ha c hc)).1)]
  rw [show (' ' :: 'L' :: 'n' :: 'g' :: ':' :: ' ' :: b) =
      ([' '] : List Char) ++ ('L' :: 'n' :: 'g' :: ':' :: ' ' :: b) from rfl]
  rw [lngSearch_skip [' '] _ (by decide)]
  exact hlast

theorem latSearch_lngLatLine (a b : List Char) (ha2 : a ≠ [])
    (ha : ∀ c ∈ a, isGpsNumC c = true)
    (hb : ∀ c ∈ b, isGpsNumC c = true) :
    latSearch (lngLatLine a b) = some a := by
  have hat : latAt ('L' :: 'a' :: 't' :: ':' :: ' ' :: a) = some a := by
    have hpre : ciPrefix ['L', 'a', 't'] ('L' :: 'a' :: 't' :: ':' :: ' ' :: a) =
        some (':' :: ' ' :: a) := rfl
    have htail : gpsTail ([':', ' '] ++ (a ++ [])) = some a :=
      gpsTail_eq [':', ' '] a [] (by decide) (by decide) ha ha2 rfl
    rw [List.append_nil] at htail
    have htail2 : gpsTail (':' :: ' ' :: a) = some a := htail
    simp only [latAt, hpre, Option.bind, htail2]
  have hlast : latSearch ('L' :: 'a' :: 't' :: ':' :: ' ' :: a) = some a := by
    simp only [latSearch, hat]
  have s0 : latSearch (lngLatLine a b) =
      latSearch ('n' :: 'g' :: ':' :: ' ' ::
        (b ++ (' ' :: 'L' :: 'a' :: 't' :: ':' :: ' ' :: a))) := by
    rw [show lngLatLine a b = 'L' :: ('n' :: 'g' :: ':' :: ' ' ::
        (b ++ (' ' :: 'L' :: 'a' :: 't' :: ':' :: ' ' :: a))) from rfl]
    exact latSearch_cons_none _ _ rfl
  have s1 : latSearch ('n' :: 'g' :: ':' :: ' ' ::
      (b ++ (' ' :: 'L' :: 'a' :: 't' :: ':' :: ' ' :: a))) =
      latSearch ('g' :: ':' :: ' ' ::
        (b ++ (' ' :: 'L' :: 'a' :: 't' :: ':' :: ' ' :: a))) :=
    latSearch_cons_none _ _ (latAt_none_head 'n' _ (by decide) (by decide))
  have s2 : latSearch ('g' :: ':' :: ' ' ::
      (b ++ (' ' :: 'L' :: 'a' :: 't' :: ':' :: ' ' :: a))) =
      latSearch (':' :: ' ' ::
        (b ++ (' ' :: 'L' :: 'a' :: 't' :: ':' :: ' ' :: a))) :=
    latSearch_cons_none _ _ rfl
  rw [s0, s1, s2]
  rw [show (':' :: ' ' :: (b ++ (' ' :: 'L' :: 'a' :: 't' :: ':' :: ' ' :: a))) =
      ([':', ' '] : List Char) ++
        (b ++ (' ' :: 'L' :: 'a' :: 't' :: ':' :: ' ' :: a)) from rfl]
  rw [latSearch_skip [':', ' '] _ (by decide)]
  rw [latSearch_skip b _
    (fun c hc => ⟨(gpsNum_lower (hb c hc)).1, (gpsNum_lower (hb c hc)).2.1⟩)]
  rw [show (' ' :: 'L' :: 'a' :: 't' :: ':' :: ' ' :: a) =
      ([' '] : List Char) ++ ('L' :: 'a' :: 't' :: ':' :: ' ' :: a) from rfl]
  rw [latSearch_skip [' '] _ (by decide)]
  exact hlast

theorem lngSearch_lngLatLine (a b : List Char) (hb2 : b ≠ [])
    (hb : ∀ c ∈ b, isGpsNumC c = true) :
    lngSearch (lngLatLine a b) = some b := by
  have htail : gpsTail ([':', ' '] ++
      (b ++ (' ' :: 'L' :: 'a' :: 't' :: ':' :: ' ' :: a))) = some b :=
    gpsTail_eq [':', ' '] b _ (by decide) (by decide) hb hb2
      (List.takeWhile_cons_of_neg (by decide))
  have hat : lngAt (lngLatLine a b) = some b := by
    have hpre : ciPrefix ['L', 'n', 'g'] (lngLatLine a b) =
        some ([':', ' '] ++ (b ++ (' ' :: 'L' :: 'a' :: 't' :: ':' :: ' ' :: a))) := rfl
    simp only [lngAt, hpre, Option.bind, htail]
  rw [show lngLatLine a b = 'L' :: ('n' :: 'g' :: ':' :: ' ' ::
      (b ++ (' ' :: 'L' :: 'a' :: 't' :: ':' :: ' ' :: a))) from rfl] at hat ⊢
  simp only [lngSearch, hat]

theorem jsTrim_eq_self_of (cs : List Char)
    (h1 : List.dropWhile isJsSpace cs = cs)
    (h2 : List.dropWhile isJsSpace cs.reverse = cs.reverse) : jsTrim cs = cs := by
  simp only [jsTrim, h1, h2, List.reverse_reverse]

theorem jsTrim_latLngLine (a b : List Char) (hb2 : b ≠ [])
    (hb : ∀ c ∈ b, isGpsNumC c = true) :
    jsTrim (latLngLine a b) = latLngLine a b := by
  apply jsTrim_eq_self_of
  · exact List.dropWhile_cons_of_neg (by decide)
  · have hsplit : latLngLine a b =
        ('L' :: 'a' :: 't' :: ':' :: ' ' :: (a ++ [' ', 'L', 'n', 'g', ':', ' '])) ++ b := by
      simp [latLngLine, List.append_assoc]
    rw [hsplit, List.reverse_append]
    exact dropWhile_append_stop _ _ (by simpa using hb2)
      (fun c hc => gpsNum_not_space (hb c (List.mem_reverse.mp hc)))

theorem jsTrim_lngLatLine (a b : List Char) (ha2 : a ≠ [])
    (ha : ∀ c ∈ a, isGpsNumC c = true) :
    jsTrim (lngLatLine a b) = lngLatLine a b := by
  apply jsTrim_eq_self_of
  · exact List.dropWhile_cons_of_neg (by decide)
  · have hsplit : lngLatLine a b =
        ('L' :: 'n' :: 'g' :: ':' :: ' ' :: (b ++ [' ', 'L', 'a', 't', ':', ' '])) ++ a := by
      simp [lngLatLine, List.append_assoc]
    rw [hsplit, List.reverse_append]
    exact dropWhile_append_stop _ _ (by simpa using ha2)
      (fun c hc => gpsNum_not_space (ha c (List.mem_reverse.mp hc)))

theorem processLine_gps_of (line : String) (s0 : BikeState) (t : Nat)
    (latS lngS : List Char)
    (hlat : latSearch (jsTrim line.data) = some latS)
    (hlng : lngSearch (jsTrim line.data) = some lngS) :
    (processLine line s0 t).gps =
      { lat := jsParseFloat latS
        lng := jsParseFloat lngS
        valid := jsAbsGtB (jsParseFloat latS) epsilonGps ||
          jsAbsGtB (jsParseFloat lngS) epsilonGps
        lastUpdate := t } := by
  have hne : jsTrim line.data ≠ [] := by
    intro h
    rw [h] at hlat
    simp [latSearch] at hlat
  rw [processLine_eq line s0 t hne]
  have hg : gpsExtract (jsTrim line.data) =
      some (jsParseFloat latS, jsParseFloat lngS) := by
    simp [gpsExtract, hlat, hlng]
  simp [applyGpsFuzzy, hg]

/-! ### Claim C9 -/

/-- C9 (implicit): in the fuzzy variant latitude and longitude are
extracted by two independent label-anchored sub-patterns, so the
assignment is determined by the labels, not by their order in the line:
for any decimal float renderings `a` and `b`, interpreting
`"Lng: <b> Lat: <a>"` yields the same GPS fix as `"Lat: <a> Lng: <b>"`,
with `gps.lat` the value of `a` and `gps.lng` the value of `b`. -/
theorem C9_label_order_independent (n1 n2 : Bool) (d1 f1 d2 f2 : List Char)
    (s0 : BikeState) (t : Nat)
    (h1 : d1 ≠ []) (h2 : d2 ≠ [])
    (hd1 : ∀ c ∈ d1, isDigitC c = true) (hf1 : ∀ c ∈ f1, isDigitC c = true)
    (hd2 : ∀ c ∈ d2, isDigitC c = true) (hf2 : ∀ c ∈ f2, isDigitC c = true) :
    (processLine (String.mk (lngLatLine (numLit n1 d1 f1) (numLit n2 d2 f2))) s0 t).gps =
      (processLine (String.mk (latLngLine (numLit n1 d1 f1) (numLit n2 d2 f2))) s0 t).gps ∧
    (processLine (String.mk (latLngLine (numLit n1 d1 f1) (numLit n2 d2 f2))) s0 t).gps.lat =
      some (numLitVal n1 d1 f1) ∧
    (processLine (String.mk (latLngLine (numLit n1 d1 f1) (numLit n2 d2 f2))) s0 t).gps.lng =
      some (numLitVal n2 d2 f2) := by
  have ha2 := numLit_ne_nil n1 d1 f1 h1
  have hb2 := numLit_ne_nil n2 d2 f2 h2
  have ha := numLit_all_gpsNum n1 d1 f1 hd1 hf1
  have hb := numLit_all_gpsNum n2 d2 f2 hd2 hf2
  have htr1 : jsTrim (String.mk (latLngLine (numLit n1 d1 f1) (numLit n2 d2 f2))).data =
      latLngLine (numLit n1 d1 f1) (numLit n2 d2 f2) :=
    jsTrim_latLngLine _ _ hb2 hb
  have htr2 : jsTrim (String.mk (lngLatLine (numLit n1 d1 f1) (numLit n2 d2 f2))).data =
      lngLatLine (numLit n1 d1 f1) (numLit n2 d2 f2) :=
    jsTrim_lngLatLine _ _ ha2 ha
  have hlat1 : latSearch (jsTrim (String.mk
      (latLngLine (numLit n1 d1 f1) (numLit n2 d2 f2))).data) = some (numLit n1 d1 f1) := by
    rw [htr1]
    exact latSearch_latLngLine _ _ ha2 ha
  have hlng1 : lngSearch (jsTrim (String.mk
      (latLngLine (numLit n1 d1 f1) (numLit n2 d2 f2))).data) = some (numLit n2 d2 f2) := by
    rw [htr1]
    exact lngSearch_latLngLine _ _ ha hb2 hb
  have hlat2 : latSearch (jsTrim (String.mk
      (lngLatLine (numLit n1 d1 f1) (numLit n2 d2 f2))).data) = some (numLit n1 d1 f1) := by
    rw [htr2]
    exact latSearch_lngLatLine _ _ ha2 ha hb
  have hlng2 : lngSearch (jsTrim (String.mk
      (lngLatLine (numLit n1 d1 f1) (numLit n2 d2 f2))).data) = some (numLit n2 d2 f2) := by
    rw [htr2]
    exact lngSearch_lngLatLine _ _ hb2 hb
  have g1 := processLine_gps_of (String.mk (latLngLine (numLit n1 d1 f1) (numLit n2 d2 f2)))
    s0 t (numLit n1 d1 f1) (numLit n2 d2 f2) hlat1 hlng1
  have g2 := processLine_gps_of (String.mk (lngLatLine (numLit n1 d1 f1) (numLit n2 d2 f2)))
    s0 t (numLit n1 d1 f1) (numLit n2 d2 f2) hlat2 hlng2
  refine ⟨by rw [g1, g2], ?_, ?_⟩
  · rw [g1]
    exact jsParseFloat_numLit n1 d1 f1 h1 hd1 hf1
  · rw [g1]
    exact jsParseFloat_numLit n2 d2 f2 h2 hd2 hf2

/-- C9 witness: the float renderings `-3.5` and `0`, i.e. the lines
`"Lng: 0 Lat: -3.5"` and `"Lat: -3.5 Lng: 0"`. -/
theorem C9_witness :
    (processLine (String.mk (lngLatLine (numLit true ['3'] ['5']) (numLit false ['0'] [])))
        initialState 3).gps =
      (processLine (String.mk (latLngLine (numLit true ['3'] ['5']) (numLit false ['0'] [])))
        initialState 3).gps ∧
    (processLine (String.mk (latLngLine (numLit true ['3'] ['5']) (numLit false ['0'] [])))
        initialState 3).gps.lat = some (numLitVal true ['3'] ['5']) ∧
    (processLine (String.mk (latLngLine (numLit true ['3'] ['5']) (numLit false ['0'] [])))
        initialState 3).gps.lng = some (numLitVal false ['0'] []) :=
  C9_label_order_independent true false ['3'] ['5'] ['0'] [] initialState 3
    (by decide) (by decide) (by decide) (by decide) (by decide) (by decide)

end Collision
